import Mathlib

/-!
Verification of the category aggregation and filtering pipeline of
`src/dashboard.py` (the Noon bestsellers dashboard).

The embedding models a pandas DataFrame shallowly:

* a raw table (`RawFrame`) is a list of column names plus one association
  list per row mapping a column name to an optional cell text
  (a missing association models a NaN cell);
* a loaded `ProductRow` mirrors the columns the pipeline reads:
  `Target_Category`, the country column, the product-name column, and the
  five numeric columns fixed in `cols_to_fix`; string-valued cells are
  `Option String` because pandas cells can be NaN, which matters to
  `groupby` (NaN keys are dropped) and to `count` (NaN cells are not
  counted).  Presentation-only string columns (URLs, sales text) carry no
  invariants and are omitted;
* numeric cells are modelled as integers: every numeric column of the
  dashboard holds counts, ranks, prices-in-fils or scores, and every claim
  about them is integer-valued, so `pd.to_numeric` is embedded on
  optionally-signed integer numerals (comma-stripped and
  whitespace-trimmed first, exactly as the source does), with parse
  failure mapped to 0 by `fillna(0)`.
-/

/-- Code-point comparison of character lists, the order Python uses to
compare strings; written as a Bool-valued function so that it computes in
the kernel. -/
def charsLe : List Char → List Char → Bool
  | [], _ => true
  | _ :: _, [] => false
  | a :: as, b :: bs =>
    if a.toNat < b.toNat then true
    else if b.toNat < a.toNat then false
    else charsLe as bs

/-- Lexicographic order on strings by code point. -/
def strLe (a b : String) : Prop := charsLe a.toList b.toList = true

instance : DecidableRel strLe := fun a b => by
  unfold strLe; infer_instance

/-- Removal of every comma, embedding `.str.replace(',', '')` from
`load_data` (line 46 of `src/dashboard.py`). -/
def stripCommas (cs : List Char) : List Char := cs.filter (fun c => c ≠ ',')

/-- Removal of leading and trailing whitespace, embedding `.str.strip()`
from `load_data` (line 46). -/
def trimChars (cs : List Char) : List Char :=
  ((cs.dropWhile Char.isWhitespace).reverse.dropWhile Char.isWhitespace).reverse

/-- Value of a nonempty all-digit character list, `none` otherwise. -/
def digitsVal : List Char → Option ℕ
  | [] => none
  | cs =>
    if cs.all Char.isDigit then
      some (cs.foldl (fun n c => 10 * n + (c.toNat - 48)) 0)
    else none

/-- Optionally-signed integer numeral, the integer fragment of the grammar
`pd.to_numeric` accepts; `none` models the NaN that `errors='coerce'`
produces on unparsable text. -/
def parseSigned : List Char → Option ℤ
  | [] => none
  | c :: rest =>
    if c = '-' then (digitsVal rest).map (fun n => -(n : ℤ))
    else if c = '+' then (digitsVal rest).map (fun n => (n : ℤ))
    else (digitsVal (c :: rest)).map (fun n => (n : ℤ))

/-- Numeric coercion of one cell text, embedding lines 46-47 of
`src/dashboard.py`: strip commas, trim whitespace, parse, and turn parse
failure into 0 (`fillna(0)`). -/
def toNumeric (s : String) : ℤ :=
  (parseSigned (trimChars (stripCommas s.toList))).getD 0

/-- Numeric coercion of an optional cell: a NaN cell renders as the text
"nan" under `astype(str)`, fails to parse, and becomes 0. -/
def numCell : Option String → ℤ
  | none => 0
  | some s => toNumeric s

/-- One raw row: an association list from column name to optional cell
text; a missing or `none` entry models a NaN cell. -/
abbrev RawRow : Type := List (String × Option String)

/-- Cell of a raw row in a named column. -/
def getCell (r : RawRow) (col : String) : Option String :=
  match r.find? (fun p => p.1 = col) with
  | some p => p.2
  | none => none

/-- A raw table as read from the parquet file: column names and rows. -/
structure RawFrame where
  cols : List String
  rows : List RawRow

/-- A loaded product row; field names follow the dashboard's columns:
`category` is `Target_Category`, `region` the country column, `name` the
product-name column, and `sales`, `reviews`, `price`, `rating`, `rank`
are the five entries of `cols_to_fix` in source order. -/
structure ProductRow where
  category : Option String
  region : Option String
  name : Option String
  sales : ℤ
  reviews : ℤ
  price : ℤ
  rating : ℤ
  rank : ℤ
deriving DecidableEq

/-- Message shown by `st.error` when no category column exists (line 37). -/
def schemaErrorMsg : String := "Error: Category column missing."

/-- Ordered resolution of the category column (lines 35-37): the first
acceptable source name wins. -/
def resolveCategoryCol (cols : List String) : Option String :=
  if "类目" ∈ cols then some "类目"
  else if "所属类目" ∈ cols then some "所属类目"
  else none

/-- Construction of one `ProductRow` from a raw row, given the resolved
category column: the country column defaults to the fixed region value
when the column is absent from the frame (line 40), and each numeric
column is coerced by `numCell` (lines 43-47). -/
def rowOfRaw (cols : List String) (catCol : String) (r : RawRow) : ProductRow :=
  { category := getCell r catCol
    region := if "国家" ∈ cols then getCell r "国家" else some "阿联酋"
    name := getCell r "产品名"
    sales := numCell (getCell r "销量数字")
    reviews := numCell (getCell r "评论数")
    price := numCell (getCell r "价格")
    rating := numCell (getCell r "评分")
    rank := numCell (getCell r "排名") }

/-- The Loader (lines 29-51): resolves the category column, failing with
the schema error when neither acceptable name is present (`st.error` +
`st.stop`), then normalizes every row. -/
def load_data (f : RawFrame) : Except String (List ProductRow) :=
  match resolveCategoryCol f.cols with
  | none => Except.error schemaErrorMsg
  | some catCol => Except.ok (f.rows.map (rowOfRaw f.cols catCol))

/-- The fixed display-label mapping of the region selector (lines 62-65). -/
def country_map : List (String × String) := [("UAE", "阿联酋"), ("KSA", "沙特")]

/-- Labels offered by the selector (lines 68-69): entries of `country_map`
whose mapped value occurs among the loaded rows' region values. -/
def availableCountries (rows : List ProductRow) : List String :=
  (country_map.filter (fun p => (some p.2) ∈ rows.map ProductRow.region)).map Prod.fst

/-- Mapped data value of a display label (line 83). -/
def lookupCountry (label : String) : Option String :=
  (country_map.find? (fun p => p.1 = label)).map Prod.snd

/-- The Region Filter (line 84): rows whose country equals the selected
data value. -/
def regionFilter (rows : List ProductRow) (regionValue : String) : List ProductRow :=
  rows.filter (fun r => r.region = some regionValue)

/-- A per-category summary, one row of `category_stats` (lines 96-106);
`product_count` is a pandas `count` aggregation over the product-name
column, hence counts the rows of the group whose name cell is not NaN. -/
structure CategorySummary where
  target_category : String
  product_count : ℕ
  total_sales : ℤ
  total_reviews : ℤ
  top10_sales : ℤ
deriving DecidableEq

/-- Rows of one category group, `df[df['Target_Category'] == c]`. -/
def categoryRows (rows : List ProductRow) (c : String) : List ProductRow :=
  rows.filter (fun r => r.category = some c)

/-- Group keys: pandas `groupby('Target_Category')` drops NaN keys and
yields the distinct remaining keys in ascending order. -/
def categoryKeys (rows : List ProductRow) : List String :=
  ((rows.filterMap ProductRow.category).dedup).insertionSort strLe

/-- Embedding of `get_top10_sum` (lines 102-103): sum of the sales of the
10 largest-selling rows of a group (`nlargest(10, ...)`). -/
def get_top10_sum (group : List ProductRow) : ℤ :=
  (((group.insertionSort (fun a b => b.sales ≤ a.sales)).take 10).map ProductRow.sales).sum

/-- Summary of one category group, combining the `base_stats` aggregation
(lines 96-100) with the `top10_stats` column merged on the same key
(lines 105-106). -/
def summarize (rows : List ProductRow) (c : String) : CategorySummary :=
  let g := categoryRows rows c
  { target_category := c
    product_count := (g.filter (fun r => r.name ≠ none)).length
    total_sales := (g.map ProductRow.sales).sum
    total_reviews := (g.map ProductRow.reviews).sum
    top10_sales := get_top10_sum g }

/-- The summary table of the Aggregator (lines 96-106): one summary per
distinct non-NaN category of the region-filtered rows.  This is what the
merge on line 106 yields when at least one group exists; the zero-group
execution path of line 105, which raises instead, is modelled by
`aggregate` below. -/
def category_stats (rows : List ProductRow) : List CategorySummary :=
  (categoryKeys rows).map (summarize rows)

/-- The TypeError raised by line 105 on a zero-group input:
`groupby.apply` over zero groups returns an empty DataFrame, and
DataFrame `reset_index` rejects the `name` keyword that line 105 passes
(only a Series `reset_index` accepts it). -/
def aggTypeErrorMsg : String :=
  "TypeError: reset_index: unexpected keyword argument name"

/-- The Aggregator as the script executes it (lines 96-106): `base_stats`
aggregates per group (fine even with zero groups); the `top10_stats`
line applies `get_top10_sum` group-wise and calls
`reset_index(name=...)` on the result, which raises a `TypeError` when
there are zero groups - an empty region-filtered set, or every category
NaN - and otherwise yields the per-group column merged into
`category_stats`. -/
def aggregate (rows : List ProductRow) : Except String (List CategorySummary) :=
  if categoryKeys rows = [] then Except.error aggTypeErrorMsg
  else Except.ok (category_stats rows)

/-- The threshold filter of the Filter/Sort Engine (lines 128-131): both
comparisons are inclusive. -/
def filtered_cats (minProducts : ℕ) (minSales : ℤ) (stats : List CategorySummary) :
    List CategorySummary :=
  stats.filter (fun s => decide (minProducts ≤ s.product_count ∧ minSales ≤ s.total_sales))

/-- The two entries of `sort_options` (line 113). -/
inductive SortMode
  | bySales
  | byReviews
deriving DecidableEq

/-- The sort step of the Filter/Sort Engine (lines 134-137):
`sort_values` descending on the metric the mode selects. -/
def sortStats (mode : SortMode) (stats : List CategorySummary) : List CategorySummary :=
  match mode with
  | SortMode.bySales => stats.insertionSort (fun a b => b.total_sales ≤ a.total_sales)
  | SortMode.byReviews => stats.insertionSort (fun a b => b.total_reviews ≤ a.total_reviews)

/-- The whole Filter/Sort Engine: threshold filter, then sort. -/
def filterAndSort (mode : SortMode) (minProducts : ℕ) (minSales : ℤ)
    (stats : List CategorySummary) : List CategorySummary :=
  sortStats mode (filtered_cats minProducts minSales stats)

/-- Qualifying category names in display order (line 139). -/
def valid_categories (mode : SortMode) (minProducts : ℕ) (minSales : ℤ)
    (stats : List CategorySummary) : List String :=
  (filterAndSort mode minProducts minSales stats).map CategorySummary.target_category

/-- Upper bounds of the two threshold sliders (lines 118-125):
`int(category_stats['product_count'].max())` and
`int(category_stats['total_sales'].max())`.  On an empty summary set the
pandas maximum is NaN and `int(NaN)` raises, which `none` models. -/
def slider_bounds (stats : List CategorySummary) : Option (ℤ × ℤ) :=
  match (stats.map (fun s => (s.product_count : ℤ))).max?,
      (stats.map CategorySummary.total_sales).max? with
  | some mp, some ms => some (mp, ms)
  | _, _ => none

/-- The category the Detail Selector shows (lines 200-202): the stored
selection when it still qualifies, otherwise the first qualifying
category, otherwise `none`. -/
def current_cat (selected : Option String) (valid : List String) : Option String :=
  match selected with
  | some c => if c ∈ valid then some c else valid.head?
  | none => valid.head?

/-- The Detail Selector's row set (line 205): rows of the chosen category
from the region-filtered set, sorted ascending by rank. -/
def detail_subset (rows : List ProductRow) (c : String) : List ProductRow :=
  (categoryRows rows c).insertionSort (fun a b => a.rank ≤ b.rank)

/-- Python division, which raises on a zero divisor. -/
def pyDiv (a b : ℤ) : Option ℚ :=
  if b = 0 then none else some ((a : ℚ) / (b : ℚ))

/-- Heat normalization (lines 234-236):
`min(sales_val / max_val, 1.0) if max_val > 0 else 0`, with the division
taken only inside the guarded branch. -/
def progress_val (salesVal maxVal : ℤ) : Option ℚ :=
  if 0 < maxVal then (pyDiv salesVal maxVal).map (fun q => min q 1) else some 0

/-- Loader followed by Region Filter and Aggregator: the downstream
summaries of one region, or the first error raised on the way. -/
def pipelineStats (f : RawFrame) (regionValue : String) :
    Except String (List CategorySummary) :=
  (load_data f).bind (fun rows => aggregate (regionFilter rows regionValue))

/-! Shared ordering facts about the sort relations of the dashboard. -/

instance : IsTotal CategorySummary (fun a b => b.total_sales ≤ a.total_sales) :=
  ⟨fun a b => le_total b.total_sales a.total_sales⟩

instance : IsTrans CategorySummary (fun a b => b.total_sales ≤ a.total_sales) :=
  ⟨fun _ _ _ h1 h2 => le_trans h2 h1⟩

instance : IsTotal CategorySummary (fun a b => b.total_reviews ≤ a.total_reviews) :=
  ⟨fun a b => le_total b.total_reviews a.total_reviews⟩

instance : IsTrans CategorySummary (fun a b => b.total_reviews ≤ a.total_reviews) :=
  ⟨fun _ _ _ h1 h2 => le_trans h2 h1⟩

instance : IsTotal ProductRow (fun a b => a.rank ≤ b.rank) :=
  ⟨fun a b => le_total a.rank b.rank⟩

instance : IsTrans ProductRow (fun a b => a.rank ≤ b.rank) :=
  ⟨fun _ _ _ h1 h2 => le_trans h1 h2⟩

/-- Sorting a summary list only permutes it. -/
theorem sortStats_perm (mode : SortMode) (stats : List CategorySummary) :
    (sortStats mode stats).Perm stats := by
  cases mode <;> exact List.perm_insertionSort _ _

/-- C4: the Filter/Sort Engine returns exactly the summaries satisfying
the inclusive predicate `product_count >= min_product_count AND
total_sales >= min_total_sales`: its output is a subset of the input,
every returned summary satisfies the predicate, and no summary satisfying
the predicate is excluded. -/
theorem C4_filter_engine_exact (mode : SortMode) (minProducts : ℕ) (minSales : ℤ)
    (stats : List CategorySummary) :
    (∀ s ∈ filterAndSort mode minProducts minSales stats,
      s ∈ stats ∧ minProducts ≤ s.product_count ∧ minSales ≤ s.total_sales) ∧
    (∀ s ∈ stats, minProducts ≤ s.product_count → minSales ≤ s.total_sales →
      s ∈ filterAndSort mode minProducts minSales stats) := by
  constructor
  · intro s hs
    have hs' : s ∈ filtered_cats minProducts minSales stats :=
      (sortStats_perm mode _).mem_iff.mp hs
    rcases List.mem_filter.mp hs' with ⟨hmem, hsat⟩
    exact ⟨hmem, of_decide_eq_true hsat⟩
  · intro s hmem h1 h2
    exact (sortStats_perm mode _).mem_iff.mpr
      (List.mem_filter.mpr ⟨hmem, decide_eq_true ⟨h1, h2⟩⟩)

/-- Concrete summary for exercising the Filter/Sort Engine. -/
def wSummaryC4 : CategorySummary := CategorySummary.mk "Toys" 2 150 7 150

/-- Witness for C4 at a concrete summary set and thresholds. -/
theorem C4_witness :
    wSummaryC4 ∈ filterAndSort SortMode.bySales 1 100 [wSummaryC4] :=
  (C4_filter_engine_exact SortMode.bySales 1 100 [wSummaryC4]).2 wSummaryC4
    (by decide) (by decide) (by decide)

/-- C5: under the sales sort mode every adjacent output pair is ordered by
descending total sales, and under the reviews sort mode by descending
total reviews. -/
theorem C5_sort_monotonic (minProducts : ℕ) (minSales : ℤ)
    (stats : List CategorySummary) :
    List.Chain' (fun a b => b.total_sales ≤ a.total_sales)
      (filterAndSort SortMode.bySales minProducts minSales stats) ∧
    List.Chain' (fun a b => b.total_reviews ≤ a.total_reviews)
      (filterAndSort SortMode.byReviews minProducts minSales stats) := by
  constructor <;>
    · simp only [filterAndSort, sortStats]
      exact List.Pairwise.chain' (List.sorted_insertionSort _ _)

/-- C8: the heat normalization is defined on every input (no division
fault), and a zero maximum yields a zero heat value. -/
theorem C8_heat_defined (salesVal maxVal : ℤ) :
    (progress_val salesVal maxVal).isSome = true ∧
    (maxVal = 0 → progress_val salesVal maxVal = some 0) := by
  constructor
  · unfold progress_val pyDiv
    by_cases h : 0 < maxVal
    · have h0 : ¬ maxVal = 0 := by omega
      simp [h, h0]
    · simp [h]
  · intro h
    subst h
    simp [progress_val]

/-- Witness for C8 at a zero maximum. -/
theorem C8_witness : progress_val 7 0 = some 0 :=
  (C8_heat_defined 7 0).2 rfl

/-- C6: the Detail Selector returns exactly the rows of the requested
category (as a permutation of the category's row set) ordered ascending
by rank, and the current-category resolution keeps a still-qualifying
selection, falls back to the first qualifying category otherwise, and
yields `none` when no category qualifies. -/
theorem C6_detail_selector (rows : List ProductRow) (c : String)
    (sel : Option String) (valid : List String) :
    (detail_subset rows c).Perm (rows.filter (fun r => r.category = some c)) ∧
    List.Chain' (fun a b => a.rank ≤ b.rank) (detail_subset rows c) ∧
    (∀ c0 ∈ valid, current_cat (some c0) valid = some c0) ∧
    ((∀ c0, sel = some c0 → c0 ∉ valid) → current_cat sel valid = valid.head?) ∧
    (valid = [] → current_cat sel valid = none) := by
  refine ⟨?_, ?_, ?_, ?_, ?_⟩
  · simp only [detail_subset, categoryRows]
    exact List.perm_insertionSort _ _
  · simp only [detail_subset]
    exact List.Pairwise.chain' (List.sorted_insertionSort _ _)
  · intro c0 h0
    simp [current_cat, h0]
  · intro hsel
    cases sel with
    | none => rfl
    | some c0 =>
      have h0 : c0 ∉ valid := hsel c0 rfl
      simp [current_cat, h0]
  · intro h
    subst h
    cases sel with
    | none => rfl
    | some c0 => simp [current_cat]

/-- Concrete category rows for exercising the Detail Selector. -/
def w6row1 : ProductRow := ProductRow.mk (some "Toys") (some "阿联酋") (some "p1") 100 5 10 4 1

/-- Second concrete row, with a larger rank. -/
def w6row2 : ProductRow := ProductRow.mk (some "Toys") (some "阿联酋") (some "p2") 50 3 10 4 2

/-- Concrete region-filtered row set for the Detail Selector. -/
def w6rows : List ProductRow := [w6row2, w6row1]

/-- Witness for C6: rank-ordered details, and fallback to the first
qualifying category when the stored selection does not qualify. -/
theorem C6_witness :
    List.Chain' (fun a b => a.rank ≤ b.rank) (detail_subset w6rows "Toys") ∧
    current_cat (some "X") ["Toys"] = some "Toys" :=
  ⟨(C6_detail_selector w6rows "Toys" (some "X") ["Toys"]).2.1,
   ((C6_detail_selector w6rows "Toys" (some "X") ["Toys"]).2.2.2.1
     (fun c0 h => by cases h; decide)).trans rfl⟩

/-- C7: the Loader errors exactly when neither acceptable category column
name is present, that error propagates through the downstream pipeline,
the first acceptable name takes precedence, and a missing country column
is recovered by assigning the fixed default region to every row. -/
theorem C7_schema_error (f : RawFrame) :
    (load_data f = Except.error schemaErrorMsg ↔
      ("类目" ∉ f.cols ∧ "所属类目" ∉ f.cols)) ∧
    (load_data f = Except.error schemaErrorMsg →
      ∀ regionValue, pipelineStats f regionValue = Except.error schemaErrorMsg) ∧
    ("类目" ∈ f.cols →
      load_data f = Except.ok (f.rows.map (rowOfRaw f.cols "类目"))) ∧
    ("类目" ∉ f.cols → "所属类目" ∈ f.cols →
      load_data f = Except.ok (f.rows.map (rowOfRaw f.cols "所属类目"))) ∧
    ("国家" ∉ f.cols → ∀ rows, load_data f = Except.ok rows →
      ∀ r ∈ rows, r.region = some "阿联酋") := by
  refine ⟨?_, ?_, ?_, ?_, ?_⟩
  · by_cases h1 : "类目" ∈ f.cols
    · simp [load_data, resolveCategoryCol, h1]
    · by_cases h2 : "所属类目" ∈ f.cols
      · simp [load_data, resolveCategoryCol, h1, h2]
      · simp [load_data, resolveCategoryCol, h1, h2]
  · intro herr regionValue
    unfold pipelineStats
    rw [herr]
    rfl
  · intro h1
    simp [load_data, resolveCategoryCol, h1]
  · intro h1 h2
    simp [load_data, resolveCategoryCol, h1, h2]
  · intro hcol rows hok r hr
    unfold load_data at hok
    cases hres : resolveCategoryCol f.cols with
    | none =>
      rw [hres] at hok
      exact absurd hok (by simp)
    | some catCol =>
      rw [hres] at hok
      have hrows : rows = f.rows.map (rowOfRaw f.cols catCol) := by
        injection hok with h
        exact h.symm
      subst hrows
      rcases List.mem_map.mp hr with ⟨raw, _, hr'⟩
      subst hr'
      simp [rowOfRaw, hcol]

/-- Frame with no acceptable category column. -/
def fNoCat : RawFrame := RawFrame.mk ["品牌"] []

/-- Frame with the preferred category column and no country column. -/
def fCat : RawFrame := RawFrame.mk ["类目"] [[("类目", some "A")]]

/-- Witness for C7: the schema error fires and halts the pipeline on a
concrete category-less frame, and loading succeeds on a frame that has
the preferred category column. -/
theorem C7_witness :
    load_data fNoCat = Except.error schemaErrorMsg ∧
    pipelineStats fNoCat "阿联酋" = Except.error schemaErrorMsg ∧
    load_data fCat = Except.ok (fCat.rows.map (rowOfRaw fCat.cols "类目")) := by
  have h := C7_schema_error fNoCat
  have h' := C7_schema_error fCat
  have he : load_data fNoCat = Except.error schemaErrorMsg := h.1.mpr (by decide)
  exact ⟨he, h.2.1 he "阿联酋", h'.2.2.1 (by decide)⟩

/-- C10: the selector offers only labels of the fixed two-entry mapping
whose mapped data value occurs among the rows, and a row whose region is
outside the mapping is excluded from the region-filtered set under every
offered selection. -/
theorem C10_region_exclusion (rows : List ProductRow) :
    (∀ label ∈ availableCountries rows, ∃ cn, lookupCountry label = some cn ∧
      ((label = "UAE" ∧ cn = "阿联酋") ∨ (label = "KSA" ∧ cn = "沙特")) ∧
      ∃ r ∈ rows, r.region = some cn) ∧
    (∀ r ∈ rows, r.region ≠ some "阿联酋" → r.region ≠ some "沙特" →
      ∀ label ∈ availableCountries rows, ∀ cn, lookupCountry label = some cn →
        r ∉ regionFilter rows cn) := by
  have hmem : ∀ label ∈ availableCountries rows,
      (label = "UAE" ∧ ∃ r ∈ rows, r.region = some "阿联酋") ∨
      (label = "KSA" ∧ ∃ r ∈ rows, r.region = some "沙特") := by
    intro label hl
    by_cases hu : ∃ r ∈ rows, r.region = some "阿联酋"
    · by_cases hk : ∃ r ∈ rows, r.region = some "沙特"
      · simp [availableCountries, country_map, hu, hk] at hl
        rcases hl with h | h
        · exact Or.inl ⟨h, hu⟩
        · exact Or.inr ⟨h, hk⟩
      · simp [availableCountries, country_map, hu, hk] at hl
        exact Or.inl ⟨hl, hu⟩
    · by_cases hk : ∃ r ∈ rows, r.region = some "沙特"
      · simp [availableCountries, country_map, hu, hk] at hl
        exact Or.inr ⟨hl, hk⟩
      · simp [availableCountries, country_map, hu, hk] at hl
  constructor
  · intro label hl
    rcases hmem label hl with ⟨h1, h2⟩ | ⟨h1, h2⟩
    · subst h1
      exact ⟨"阿联酋", by decide, Or.inl ⟨rfl, rfl⟩, h2⟩
    · subst h1
      exact ⟨"沙特", by decide, Or.inr ⟨rfl, rfl⟩, h2⟩
  · intro r hr hne1 hne2 label hl cn hcn hrf
    have hreq : r.region = some cn := of_decide_eq_true (List.mem_filter.mp hrf).2
    rcases hmem label hl with ⟨h1, _⟩ | ⟨h1, _⟩
    · subst h1
      have h2 : lookupCountry "UAE" = some "阿联酋" := by decide
      rw [h2] at hcn
      injection hcn with h3
      exact hne1 (h3 ▸ hreq)
    · subst h1
      have h2 : lookupCountry "KSA" = some "沙特" := by decide
      rw [h2] at hcn
      injection hcn with h3
      exact hne2 (h3 ▸ hreq)

/-- Concrete row inside the fixed region mapping. -/
def rowUAE10 : ProductRow := ProductRow.mk (some "C") (some "阿联酋") (some "p") 1 1 1 1 1

/-- Concrete row whose region is outside the fixed mapping. -/
def rowEGY10 : ProductRow := ProductRow.mk (some "C") (some "埃及") (some "p") 1 1 1 1 1

/-- Concrete loaded row set for C10. -/
def rows10 : List ProductRow := [rowUAE10, rowEGY10]

/-- Witness for C10: the out-of-mapping row is excluded under the offered
selection. -/
theorem C10_witness : rowEGY10 ∉ regionFilter rows10 "阿联酋" :=
  (C10_region_exclusion rows10).2 rowEGY10 (by decide) (by decide) (by decide)
    "UAE" (by decide) "阿联酋" (by decide)

/-- C1 (amended): for rows with non-negative sales and non-NaN product
names - which the spec's load invariant intends but the Loader does not
enforce - every summary satisfies `top10_sales ≤ total_sales`, with
equality whenever `product_count ≤ 10`. -/
theorem C1_amended (rows : List ProductRow)
    (hsales : ∀ r ∈ rows, 0 ≤ r.sales) (hname : ∀ r ∈ rows, r.name ≠ none) :
    ∀ s ∈ category_stats rows,
      s.top10_sales ≤ s.total_sales ∧
      (s.product_count ≤ 10 → s.top10_sales = s.total_sales) := by
  intro s hs
  rcases List.mem_map.mp hs with ⟨c, _, hsum⟩
  subst hsum
  have htop : (summarize rows c).top10_sales = get_top10_sum (categoryRows rows c) := rfl
  have htot : (summarize rows c).total_sales =
      ((categoryRows rows c).map ProductRow.sales).sum := rfl
  have hcnt : (summarize rows c).product_count =
      ((categoryRows rows c).filter (fun r => r.name ≠ none)).length := rfl
  have hsub : ∀ r ∈ categoryRows rows c, r ∈ rows :=
    fun r hr => (List.mem_filter.mp hr).1
  have hperm : ((categoryRows rows c).insertionSort
      (fun a b => b.sales ≤ a.sales)).Perm (categoryRows rows c) :=
    List.perm_insertionSort _ _
  have hsum_eq : (((categoryRows rows c).insertionSort
        (fun a b => b.sales ≤ a.sales)).map ProductRow.sales).sum =
      ((categoryRows rows c).map ProductRow.sales).sum :=
    (hperm.map ProductRow.sales).sum_eq
  constructor
  · rw [htop, htot]
    have hsubl : ((((categoryRows rows c).insertionSort
          (fun a b => b.sales ≤ a.sales)).take 10).map ProductRow.sales).Sublist
        (((categoryRows rows c).insertionSort
          (fun a b => b.sales ≤ a.sales)).map ProductRow.sales) :=
      (List.take_sublist 10 _).map _
    have hnn : ∀ a ∈ ((categoryRows rows c).insertionSort
        (fun a b => b.sales ≤ a.sales)).map ProductRow.sales, 0 ≤ a := by
      intro a ha
      rcases List.mem_map.mp ha with ⟨r, hr, rfl⟩
      exact hsales r (hsub r (hperm.mem_iff.mp hr))
    calc get_top10_sum (categoryRows rows c)
        = ((((categoryRows rows c).insertionSort
            (fun a b => b.sales ≤ a.sales)).take 10).map ProductRow.sales).sum := rfl
      _ ≤ (((categoryRows rows c).insertionSort
            (fun a b => b.sales ≤ a.sales)).map ProductRow.sales).sum :=
          hsubl.sum_le_sum hnn
      _ = ((categoryRows rows c).map ProductRow.sales).sum := hsum_eq
  · intro h10
    rw [hcnt] at h10
    have hfil : (categoryRows rows c).filter (fun r => r.name ≠ none) =
        categoryRows rows c :=
      List.filter_eq_self.mpr (fun r hr => decide_eq_true (hname r (hsub r hr)))
    rw [hfil] at h10
    have hslen : ((categoryRows rows c).insertionSort
        (fun a b => b.sales ≤ a.sales)).length ≤ 10 := by
      rw [hperm.length_eq]; exact h10
    have htake : ((categoryRows rows c).insertionSort
          (fun a b => b.sales ≤ a.sales)).take 10 =
        (categoryRows rows c).insertionSort (fun a b => b.sales ≤ a.sales) :=
      List.take_of_length_le hslen
    rw [htop, htot]
    unfold get_top10_sum
    rw [htake, hsum_eq]

/-- Row with a negative sales value, as the Loader produces from the cell
text "-1". -/
def rowNegC1 : ProductRow := ProductRow.mk (some "C") (some "阿联酋") (some "p") (-1) 0 0 0 0

/-- Eleven such rows in one category. -/
def rowsNegC1 : List ProductRow := List.replicate 11 rowNegC1

/-- Counterexample to C1 as stated: on a region-filtered row set holding
eleven rows of one category with sales -1 each, the Aggregator emits a
summary whose top-10 sum (-10) exceeds its total (-11). -/
theorem C1_counterexample :
    category_stats (regionFilter rowsNegC1 "阿联酋") =
      [CategorySummary.mk "C" 11 (-11) 0 (-10)] ∧
    ¬ ((CategorySummary.mk "C" 11 (-11) 0 (-10)).top10_sales ≤
        (CategorySummary.mk "C" 11 (-11) 0 (-10)).total_sales) := by
  decide

/-- Concrete well-formed rows for the C1 witness. -/
def wrowsC1 : List ProductRow :=
  [ProductRow.mk (some "Toys") (some "阿联酋") (some "p1") 100 5 10 4 1,
   ProductRow.mk (some "Toys") (some "阿联酋") (some "p2") 50 3 10 4 2]

/-- Witness for C1 (amended) at a concrete two-row category. -/
theorem C1_witness :
    (CategorySummary.mk "Toys" 2 150 8 150).top10_sales =
      (CategorySummary.mk "Toys" 2 150 8 150).total_sales :=
  (C1_amended wrowsC1 (by decide) (by decide)
    (CategorySummary.mk "Toys" 2 150 8 150) (by decide)).2 (by decide)

/-- The fixed list of numeric columns the Loader coerces (line 43). -/
def cols_to_fix : List String := ["销量数字", "评论数", "价格", "评分", "排名"]

/-- Trimming only removes characters. -/
theorem mem_of_mem_trimChars {c : Char} {l : List Char} (h : c ∈ trimChars l) : c ∈ l := by
  unfold trimChars at h
  rw [List.mem_reverse] at h
  have h1 := (List.dropWhile_sublist _).subset h
  rw [List.mem_reverse] at h1
  exact (List.dropWhile_sublist _).subset h1

/-- Comma stripping only removes characters. -/
theorem mem_of_mem_stripCommas {c : Char} {l : List Char} (h : c ∈ stripCommas l) : c ∈ l :=
  List.mem_of_mem_filter h

/-- A parsed natural cast into the integers is non-negative, also under
the default 0. -/
theorem natCast_map_getD_nonneg (o : Option ℕ) :
    0 ≤ (o.map (fun n => (n : ℤ))).getD 0 := by
  cases o with
  | none => exact le_refl 0
  | some n => exact Int.natCast_nonneg n

/-- Numeric coercion of minus-free text is non-negative. -/
theorem toNumeric_nonneg {s : String} (h : ('-') ∉ s.toList) : 0 ≤ toNumeric s := by
  unfold toNumeric
  have hnm : ('-') ∉ trimChars (stripCommas s.toList) :=
    fun hc => h (mem_of_mem_stripCommas (mem_of_mem_trimChars hc))
  rcases hcs : trimChars (stripCommas s.toList) with _ | ⟨c, rest⟩
  · exact le_refl 0
  · have hcne : ¬ c = '-' := by
      intro hceq
      exact hnm (by rw [hcs, hceq]; exact List.mem_cons_self _ _)
    simp only [parseSigned]
    rw [if_neg hcne]
    by_cases hp : c = '+'
    · rw [if_pos hp]
      exact natCast_map_getD_nonneg _
    · rw [if_neg hp]
      exact natCast_map_getD_nonneg _

/-- Numeric coercion of a minus-free (or NaN) cell is non-negative. -/
theorem numCell_nonneg {cell : Option String}
    (h : ∀ s, cell = some s → ('-') ∉ s.toList) : 0 ≤ numCell cell := by
  cases cell with
  | none => exact le_refl 0
  | some s => exact toNumeric_nonneg (h s rfl)

/-- C2 (amended): the three coercion examples hold and malformed numeric
text never propagates, and every numeric field of every loaded row is
non-negative provided no numeric source cell contains a minus sign; the
Loader does not reject negative numerals, so unconditional non-negativity
fails (see the counterexample). -/
theorem C2_amended :
    (toNumeric "1,234" = 1234 ∧ toNumeric "abc" = 0 ∧ toNumeric "" = 0) ∧
    (∀ cell : Option String, (∀ s, cell = some s → ('-') ∉ s.toList) →
      0 ≤ numCell cell) ∧
    (∀ f rows, load_data f = Except.ok rows →
      (∀ raw ∈ f.rows, ∀ col ∈ cols_to_fix, ∀ s, getCell raw col = some s →
        ('-') ∉ s.toList) →
      ∀ r ∈ rows, 0 ≤ r.sales ∧ 0 ≤ r.reviews ∧ 0 ≤ r.price ∧
        0 ≤ r.rating ∧ 0 ≤ r.rank) := by
  refine ⟨by decide, fun cell h => numCell_nonneg h, ?_⟩
  intro f rows hok hnominus r hr
  unfold load_data at hok
  cases hres : resolveCategoryCol f.cols with
  | none =>
    rw [hres] at hok
    exact absurd hok (by simp)
  | some catCol =>
    rw [hres] at hok
    injection hok with h
    subst h
    rcases List.mem_map.mp hr with ⟨raw, hraw, rfl⟩
    have key : ∀ col ∈ cols_to_fix, 0 ≤ numCell (getCell raw col) :=
      fun col hcol => numCell_nonneg (fun s hs => hnominus raw hraw col hcol s hs)
    exact ⟨key _ (by decide), key _ (by decide), key _ (by decide),
      key _ (by decide), key _ (by decide)⟩

/-- Frame whose sales cell holds a negative numeral. -/
def fNegC2 : RawFrame :=
  RawFrame.mk ["类目", "销量数字"] [[("类目", some "A"), ("销量数字", some "-5")]]

/-- Counterexample to C2 as stated: the Loader accepts the cell text "-5"
and produces a row whose sales field is negative. -/
theorem C2_counterexample :
    load_data fNegC2 =
      Except.ok [ProductRow.mk (some "A") (some "阿联酋") none (-5) 0 0 0 0] ∧
    ¬ (0 ≤ (ProductRow.mk (some "A") (some "阿联酋") none (-5) 0 0 0 0).sales) :=
  ⟨rfl, by decide⟩

/-- Frame with no numeric columns at all, for the C2 witness. -/
def fEmptyC2 : RawFrame := RawFrame.mk ["类目"] [[("类目", some "A")]]

/-- Loaded row of `fEmptyC2`. -/
def rowAC2 : ProductRow := ProductRow.mk (some "A") (some "阿联酋") none 0 0 0 0 0

/-- Witness for C2 (amended) at concrete cells and a concrete frame. -/
theorem C2_witness :
    toNumeric "1,234" = 1234 ∧ 0 ≤ numCell (some "7") ∧ 0 ≤ rowAC2.sales :=
  ⟨C2_amended.1.1,
   C2_amended.2.1 (some "7") (fun s hs => by cases hs; decide),
   (C2_amended.2.2 fEmptyC2 [rowAC2] rfl
     (fun raw hraw col hcol s hs => by
       fin_cases hraw
       fin_cases hcol <;> exact Option.noConfusion hs)
     rowAC2 (by decide)).1⟩

/-- Counting rows of one category equals counting that key among the
non-NaN category values. -/
theorem countP_category (rows : List ProductRow) (c : String) :
    rows.countP (fun r => r.category = some c) =
      (rows.filterMap ProductRow.category).count c := by
  induction rows with
  | nil => rfl
  | cons r t ih =>
    cases hr : r.category with
    | none =>
      rw [List.filterMap_cons_none hr, List.countP_cons]
      simp [hr, ih]
    | some v =>
      rw [List.filterMap_cons_some hr, List.countP_cons, List.count_cons, ih]
      simp [hr]
  --
/-- With no NaN categories, the key extraction keeps every row. -/
theorem length_filterMap_category (rows : List ProductRow)
    (h : ∀ r ∈ rows, r.category ≠ none) :
    (rows.filterMap ProductRow.category).length = rows.length := by
  induction rows with
  | nil => rfl
  | cons r t ih =>
    cases hr : r.category with
    | none => exact absurd hr (h r (List.mem_cons_self r t))
    | some v =>
      rw [List.filterMap_cons_some hr]
      simp only [List.length_cons]
      rw [ih (fun x hx => h x (List.mem_cons_of_mem r hx))]

/-- A nonempty row set with non-NaN categories has at least one group. -/
theorem categoryKeys_ne_nil (rows : List ProductRow) (hne : rows ≠ [])
    (hcat : ∀ r ∈ rows, r.category ≠ none) : categoryKeys rows ≠ [] := by
  rcases List.exists_mem_of_ne_nil rows hne with ⟨r, hr⟩
  rcases hv : r.category with _ | v
  · exact absurd hv (hcat r hr)
  · exact List.ne_nil_of_mem ((List.perm_insertionSort strLe _).mem_iff.mpr
      (List.mem_dedup.mpr (List.mem_filterMap.mpr ⟨r, hr, hv⟩)))

/-- C3 (amended): on a nonempty row set in which every row has a non-NaN
category and a non-NaN product name, the Aggregator succeeds and the
product counts of its summaries sum to the number of input rows.  The
claim as stated omits both side conditions: on a zero-group set the
Aggregator raises at the top10 reset_index line instead of returning
summaries, and the pandas `count` aggregation skips NaN names (see the
counterexample). -/
theorem C3_amended (rows : List ProductRow) (hne : rows ≠ [])
    (hcat : ∀ r ∈ rows, r.category ≠ none) (hname : ∀ r ∈ rows, r.name ≠ none) :
    aggregate rows = Except.ok (category_stats rows) ∧
    ((category_stats rows).map CategorySummary.product_count).sum = rows.length := by
  constructor
  · unfold aggregate
    rw [if_neg (categoryKeys_ne_nil rows hne hcat)]
  unfold category_stats
  rw [List.map_map]
  have hpt : ∀ c ∈ categoryKeys rows,
      (CategorySummary.product_count ∘ summarize rows) c =
        (rows.filterMap ProductRow.category).count c := by
    intro c _
    show ((categoryRows rows c).filter (fun r => r.name ≠ none)).length = _
    have hfil : (categoryRows rows c).filter (fun r => r.name ≠ none) =
        categoryRows rows c :=
      List.filter_eq_self.mpr (fun r hr =>
        decide_eq_true (hname r (List.mem_filter.mp hr).1))
    rw [hfil]
    show (rows.filter (fun r => r.category = some c)).length = _
    rw [← List.countP_eq_length_filter]
    exact countP_category rows c
  rw [List.map_congr_left hpt]
  have hperm : (categoryKeys rows).Perm ((rows.filterMap ProductRow.category).dedup) :=
    List.perm_insertionSort _ _
  rw [(hperm.map (fun c => (rows.filterMap ProductRow.category).count c)).sum_eq]
  rw [List.sum_map_count_dedup_eq_length]
  exact length_filterMap_category rows hcat

/-- Single row with a non-NaN category but a NaN product name. -/
def rowsNullNameC3 : List ProductRow :=
  [ProductRow.mk (some "A") (some "阿联酋") none 1 0 0 0 0]

/-- Counterexample to C3 as stated: all categories are non-null, yet the
product counts sum to 0 while there is 1 input row, because the count
aggregation runs over the product-name column and skips its NaN. -/
theorem C3_counterexample :
    rowsNullNameC3.all (fun r => r.category.isSome) = true ∧
    ¬ (((category_stats rowsNullNameC3).map CategorySummary.product_count).sum =
        rowsNullNameC3.length) := by
  decide

/-- Concrete two-category row set for the C3 witness. -/
def wrowsC3 : List ProductRow :=
  [ProductRow.mk (some "A") (some "阿联酋") (some "p1") 3 0 0 0 1,
   ProductRow.mk (some "B") (some "阿联酋") (some "p2") 4 0 0 0 1]

/-- Witness for C3 (amended) at a concrete row set. -/
theorem C3_witness :
    aggregate wrowsC3 = Except.ok (category_stats wrowsC3) ∧
    ((category_stats wrowsC3).map CategorySummary.product_count).sum = wrowsC3.length :=
  C3_amended wrowsC3 (by decide) (by decide) (by decide)

/-- Every offered label comes from the fixed mapping with its data value
present among the rows. -/
theorem availableCountries_cases (rows : List ProductRow) :
    ∀ label ∈ availableCountries rows,
      (label = "UAE" ∧ ∃ r ∈ rows, r.region = some "阿联酋") ∨
      (label = "KSA" ∧ ∃ r ∈ rows, r.region = some "沙特") := by
  intro label hl
  by_cases hu : ∃ r ∈ rows, r.region = some "阿联酋"
  · by_cases hk : ∃ r ∈ rows, r.region = some "沙特"
    · simp [availableCountries, country_map, hu, hk] at hl
      rcases hl with h | h
      · exact Or.inl ⟨h, hu⟩
      · exact Or.inr ⟨h, hk⟩
    · simp [availableCountries, country_map, hu, hk] at hl
      exact Or.inl ⟨hl, hu⟩
  · by_cases hk : ∃ r ∈ rows, r.region = some "沙特"
    · simp [availableCountries, country_map, hu, hk] at hl
      exact Or.inr ⟨hl, hk⟩
    · simp [availableCountries, country_map, hu, hk] at hl

/-- C9 (amended): a region selection whose filtered row set is empty
does not produce an empty Category Summary set - the Aggregator itself
raises a TypeError at the top10 reset_index line (line 105) before the
threshold-bound computation runs (see the counterexample); the pipeline
avoids this only because every selection the selector actually offers
filters to a nonempty row set, and the threshold-bound computation is
defined on every nonempty summary set. -/
theorem C9_amended (rows : List ProductRow) (regionValue : String) :
    (regionFilter rows regionValue = [] →
      aggregate (regionFilter rows regionValue) = Except.error aggTypeErrorMsg) ∧
    (∀ label ∈ availableCountries rows, ∀ cn, lookupCountry label = some cn →
      regionFilter rows cn ≠ []) ∧
    (∀ stats : List CategorySummary, stats ≠ [] →
      (slider_bounds stats).isSome = true) := by
  refine ⟨?_, ?_, ?_⟩
  · intro h
    rw [h]
    rfl
  · intro label hl cn hcn
    rcases availableCountries_cases rows label hl with ⟨h1, r, hr, hreg⟩ | ⟨h1, r, hr, hreg⟩
    · subst h1
      have h2 : lookupCountry "UAE" = some "阿联酋" := by decide
      rw [h2] at hcn
      injection hcn with h3
      subst h3
      exact List.ne_nil_of_mem (List.mem_filter.mpr ⟨hr, decide_eq_true hreg⟩)
    · subst h1
      have h2 : lookupCountry "KSA" = some "沙特" := by decide
      rw [h2] at hcn
      injection hcn with h3
      subst h3
      exact List.ne_nil_of_mem (List.mem_filter.mpr ⟨hr, decide_eq_true hreg⟩)
  · intro stats hne
    rcases hm1 : (stats.map (fun s => (s.product_count : ℤ))).max? with _ | m1
    · exact absurd (by simpa using List.max?_eq_none_iff.mp hm1) hne
    · rcases hm2 : (stats.map CategorySummary.total_sales).max? with _ | m2
      · exact absurd (by simpa using List.max?_eq_none_iff.mp hm2) hne
      · unfold slider_bounds
        rw [hm1, hm2]
        rfl

/-- Row of a region other than the one selected. -/
def rowKSAC9 : ProductRow := ProductRow.mk (some "C") (some "沙特") (some "p") 1 1 1 1 1

/-- Counterexample to C9 as stated: on a region selection whose filtered
row set is empty, the Aggregator does not produce an empty summary set
and continue - it raises the TypeError of the zero-group top10 line. -/
theorem C9_counterexample :
    regionFilter [rowKSAC9] "阿联酋" = [] ∧
    aggregate (regionFilter [rowKSAC9] "阿联酋") = Except.error aggTypeErrorMsg :=
  ⟨by decide, rfl⟩

/-- Witness for C9 (amended) at a concrete row and summary set. -/
theorem C9_witness :
    aggregate (regionFilter [rowKSAC9] "阿联酋") = Except.error aggTypeErrorMsg ∧
    regionFilter [rowKSAC9] "沙特" ≠ [] ∧
    (slider_bounds [CategorySummary.mk "C" 1 1 1 1]).isSome = true :=
  ⟨(C9_amended [rowKSAC9] "阿联酋").1 (by decide),
   (C9_amended [rowKSAC9] "阿联酋").2.1 "KSA" (by decide) "沙特" (by decide),
   (C9_amended [rowKSAC9] "阿联酋").2.2 [CategorySummary.mk "C" 1 1 1 1] (by decide)⟩
